import Mathlib

/-!
# Verification of `task_tracker.py`

A shallow embedding of the command-line task tracker in `src/task_tracker.py`
and proofs about its behaviour.

Modelling choices, stated once here:

* JSON values decoded by Python's `json` module are modelled by the inductive
  `Json` (JSON numbers are carried as `Int`; no claim depends on numeric
  values, only on equality with strings).
* The persisted `tasks.json` file is modelled by `FileContent`: it is absent,
  holds text that is not valid JSON (`malformed`), or holds the text of a
  JSON value `j` (`json j`).  `json.load` / `json.dump` of Python's standard
  library are modelled as an exact decode/encode pair on this type; the
  program-level composition of `save_tasks` and `load_tasks` is what is
  verified, not the standard library's serializer.
* A Python `dict` produced by JSON decoding is an association list
  `List (String × Json)` with first-match lookup (`dictGet`) and
  order-preserving update (`dictSet`), matching CPython's insertion-ordered
  dicts with unique keys.
* Uncaught Python exceptions (`KeyError`, `TypeError`, `AttributeError`) are
  modelled by the `err` field of the result records: `err = some e` means the
  call raised `e` after producing the recorded prints and file writes, and a
  process whose command raised exits abnormally.
* `print(x)` calls are recorded in order in the `msgs` field, one list entry
  per `print` call.
* Python's `int(s)` is modelled by `pyInt` for ASCII input (optional
  surrounding whitespace, optional sign, decimal digits); exotic accepted
  forms (underscore separators, non-ASCII digits) are not modelled, and no
  claim depends on them.
* The `IOError` handler of `save_tasks` (line 48) is not modelled: the
  modelled file is always writable, which every claim here assumes.
-/

namespace TaskTracker

/-- A JSON value as decoded by Python's `json` module. -/
inductive Json where
  | null : Json
  | bool : Bool → Json
  | num : Int → Json
  | str : String → Json
  | arr : List Json → Json
  | obj : List (String × Json) → Json

/-- Python exceptions that the modelled code can raise or catch. -/
inductive PyError where
  | jsonDecodeError : PyError
  | keyError : String → PyError
  | typeError : PyError
  | attributeError : PyError
deriving Repr, DecidableEq

/-- The state of the `tasks.json` file: absent, present with content that is
not valid JSON, or present with the text of the JSON value `j`. -/
inductive FileContent where
  | absent : FileContent
  | malformed : FileContent
  | json : Json → FileContent

/-- First-match lookup in a decoded JSON object, i.e. `dict.__getitem__`
domain: CPython dicts have unique keys, so first match is the match. -/
def dictGet : List (String × Json) → String → Option Json
  | [], _ => none
  | (k, v) :: rest, key => if k = key then some v else dictGet rest key

/-- In-place dict assignment `d[key] = v`: overwrites the value of an existing
key keeping its position, appends a new key at the end (insertion order). -/
def dictSet : List (String × Json) → String → Json → List (String × Json)
  | [], key, v => [(key, v)]
  | (k, w) :: rest, key, v =>
      if k = key then (k, v) :: rest else (k, w) :: dictSet rest key v

/-- Python subscript `j[key]` with a string key: succeeds only on a dict with
that key; `KeyError` on a dict missing it, `TypeError` on any other value. -/
def pyGetItem (j : Json) (key : String) : Except PyError Json :=
  match j with
  | .obj fields =>
      match dictGet fields key with
      | some v => .ok v
      | none => .error (.keyError key)
  | _ => .error .typeError

/-- Python subscript assignment `j[key] = v`: only a dict accepts it. -/
def pySetItem (j : Json) (key : String) (v : Json) : Except PyError Json :=
  match j with
  | .obj fields => .ok (.obj (dictSet fields key v))
  | _ => .error .typeError

/-- Python method call `j.get key`: total on dicts, `AttributeError`
otherwise. -/
def pyGet (j : Json) (key : String) : Except PyError (Option Json) :=
  match j with
  | .obj fields => .ok (dictGet fields key)
  | _ => .error .attributeError

/-- Value of `cs` read as a decimal numeral. -/
def digitsToNat (cs : List Char) : Nat :=
  cs.foldl (fun acc c => 10 * acc + (c.toNat - 48)) 0

/-- The ASCII whitespace characters `int()` strips around the numeral. -/
def isPySpace (c : Char) : Bool :=
  c = ' ' || c = '\t' || c = '\n' || c = '\r'

/-- The characters of `s` with surrounding whitespace stripped. -/
def stripChars (s : String) : List Char :=
  ((s.toList.dropWhile isPySpace).reverse.dropWhile isPySpace).reverse

/-- Model of Python's `int(s)` on ASCII input: strip surrounding whitespace,
optional single sign, then a non-empty run of decimal digits; `none` models
the `ValueError` that `int` raises on anything else. -/
def pyInt (s : String) : Option Int :=
  match stripChars s with
  | [] => none
  | c :: rest =>
      if c = '-' then
        if rest ≠ [] ∧ rest.all Char.isDigit then
          some (-(digitsToNat rest : Int))
        else none
      else if c = '+' then
        if rest ≠ [] ∧ rest.all Char.isDigit then
          some ((digitsToNat rest : Int))
        else none
      else if (c :: rest).all Char.isDigit then
        some ((digitsToNat (c :: rest) : Int))
      else none

mutual

/-- Python `repr` of a JSON-decoded value, as `str()` falls back to it for
containers.  Strings are quoted with single quotes (escaping inside the
string is not modelled; no claim depends on it). -/
def pyRepr : Json → String
  | .null => "None"
  | .bool true => "True"
  | .bool false => "False"
  | .num n => toString n
  | .str s => "\x27" ++ s ++ "\x27"
  | .arr xs => "[" ++ pyReprArr xs ++ "]"
  | .obj kvs => "\x7b" ++ pyReprObj kvs ++ "\x7d"

/-- Comma-separated `repr`s of the elements of a decoded list. -/
def pyReprArr : List Json → String
  | [] => ""
  | [x] => pyRepr x
  | x :: y :: rest => pyRepr x ++ ", " ++ pyReprArr (y :: rest)

/-- Comma-separated `key: value` `repr`s of the items of a decoded dict. -/
def pyReprObj : List (String × Json) → String
  | [] => ""
  | [(k, v)] => "\x27" ++ k ++ "\x27: " ++ pyRepr v
  | (k, v) :: p :: rest =>
      "\x27" ++ k ++ "\x27: " ++ pyRepr v ++ ", " ++ pyReprObj (p :: rest)

end

/-- Python `str()` of a JSON-decoded value, as an f-string interpolates it:
a string is inserted verbatim, anything else through `repr`. -/
def pyStr (j : Json) : String :=
  match j with
  | .str s => s
  | .null => "None"
  | .bool true => "True"
  | .bool false => "False"
  | .num n => toString n
  | j => pyRepr j

/-- Model of Python's `str.lower()` for the ASCII command words the claims
use: lowercase each character. -/
def pyLower (s : String) : String :=
  ⟨s.toList.map Char.toLower⟩

/-- Outcome of `json.load` on an open file (the caller has already ruled out
absence): the decoded value, or `JSONDecodeError` on malformed text. -/
def json_load : FileContent → Except PyError Json
  | .absent => .error .jsonDecodeError
  | .malformed => .error .jsonDecodeError
  | .json j => .ok j

/-- `load_tasks` (task_tracker.py lines 24-39): absent file gives `[]`; else
`json.load`, catching `json.JSONDecodeError` as `[]`; a decoded value that is
not a list is replaced by `[]`. -/
def load_tasks (file : FileContent) : Except PyError (List Json) :=
  match file with
  | .absent => .ok []
  | file =>
    match json_load file with
    | .ok tasks =>
        .ok (match tasks with
             | .arr elems => elems
             | _ => [])
    | .error .jsonDecodeError => .ok []
    | .error e => .error e

/-- `save_tasks` (lines 41-49): `json.dump` overwrites the file with the
serialized JSON array (the `IOError` branch is not modelled). -/
def save_tasks (tasks : List Json) : FileContent :=
  .json (.arr tasks)

/-- Observable outcome of one task operation: the `print` calls in order, the
final state of `tasks.json`, the uncaught exception if one was raised, and
how many times `load_tasks` ran. -/
structure Effect where
  msgs : List String
  file : FileContent
  err : Option PyError
  loads : Nat

/-- Python `value == "complete"`-style comparison of a decoded JSON value
with a string literal: true only for the equal string, false for every other
value (including `None` from a missing `dict.get`). -/
def eqPyStr (j : Json) (s : String) : Bool :=
  match j with
  | .str t => t = s
  | _ => false

/-- `add_task` (lines 66-81).  `if not description` on a `str` is exactly the
emptiness test. -/
def add_task (description : String) (file : FileContent) : Effect :=
  if description = "" then
    { msgs := ["Error: Cannot add an empty task."], file := file,
      err := none, loads := 0 }
  else
    match load_tasks file with
    | .error e => { msgs := [], file := file, err := some e, loads := 1 }
    | .ok tasks =>
        let new_task : Json :=
          .obj [("description", .str description), ("status", .str "pending")]
        { msgs := ["Task added: \"" ++ description ++ "\""],
          file := save_tasks (tasks ++ [new_task]), err := none, loads := 1 }

/-- The loop body of `list_tasks` (lines 93-95), started at 1-based counter
`i`: the lines printed so far and the exception that stopped the loop, if
any.  `task.get` raises `AttributeError` on a non-dict element. -/
def render_tasks (tasks : List Json) (i : Nat) : List String × Option PyError :=
  match tasks with
  | [] => ([], none)
  | t :: rest =>
      match pyGet t "status" with
      | .error e => ([], some e)
      | .ok st =>
          let status_icon :=
            if eqPyStr (st.getD .null) "complete" then "[x]" else "[ ]"
          match pyGet t "description" with
          | .error e => ([], some e)
          | .ok descOpt =>
              let desc :=
                match descOpt with
                | some d => pyStr d
                | none => "No description"
              let line := "  " ++ toString i ++ ". " ++ status_icon ++ " " ++ desc
              let res := render_tasks rest (i + 1)
              (line :: res.1, res.2)

/-- `list_tasks` (lines 83-96): hint on an empty list, otherwise a header,
one line per task, and a footer; never writes. -/
def list_tasks (file : FileContent) : Effect :=
  match load_tasks file with
  | .error e => { msgs := [], file := file, err := some e, loads := 1 }
  | .ok tasks =>
      match tasks with
      | [] =>
          { msgs := ["No tasks found. Add one with the \x27add\x27 command!"],
            file := file, err := none, loads := 1 }
      | _ =>
          let res := render_tasks tasks 1
          match res.2 with
          | some e =>
              { msgs := "--- Your Tasks ---" :: res.1, file := file,
                err := some e, loads := 1 }
          | none =>
              { msgs := "--- Your Tasks ---" :: res.1 ++ ["------------------"],
                file := file, err := none, loads := 1 }

/-- `_update_task` (lines 98-128), the shared body of `complete` and
`remove`.  List indexing is written with `List.getD`; every access is inside
the source's own range guard, so the default is never read. -/
def _update_task (task_index_str : String) (action : String)
    (file : FileContent) : Effect :=
  match pyInt task_index_str with
  | none =>
      { msgs := ["Error: Invalid task number \x27" ++ task_index_str ++
                 "\x27. Must be an integer."],
        file := file, err := none, loads := 0 }
  | some n =>
      let task_index : Int := n - 1
      match load_tasks file with
      | .error e => { msgs := [], file := file, err := some e, loads := 1 }
      | .ok tasks =>
          if 0 ≤ task_index ∧ task_index < (tasks.length : Int) then
            let i : Nat := task_index.toNat
            if action = "complete" then
              match pyGetItem (tasks.getD i .null) "status" with
              | .error e => { msgs := [], file := file, err := some e, loads := 1 }
              | .ok status =>
                  if eqPyStr status "complete" then
                    { msgs := ["Task " ++ toString (task_index + 1) ++
                               " is already marked as complete."],
                      file := file, err := none, loads := 1 }
                  else
                    match pySetItem (tasks.getD i .null) "status" (.str "complete") with
                    | .error e =>
                        { msgs := [], file := file, err := some e, loads := 1 }
                    | .ok task2 =>
                        let tasks2 := tasks.set i task2
                        match pyGetItem (tasks2.getD i .null) "description" with
                        | .error e =>
                            { msgs := [], file := save_tasks tasks2,
                              err := some e, loads := 1 }
                        | .ok desc =>
                            { msgs := ["Task " ++ toString (task_index + 1) ++
                                       " marked as complete: \"" ++ pyStr desc ++ "\""],
                              file := save_tasks tasks2, err := none, loads := 1 }
            else if action = "remove" then
              let removed_task := tasks.getD i .null
              let tasks2 := tasks.eraseIdx i
              match pyGetItem removed_task "description" with
              | .error e =>
                  { msgs := [], file := save_tasks tasks2, err := some e, loads := 1 }
              | .ok desc =>
                  { msgs := ["Task " ++ toString (task_index + 1) ++
                             " removed: \"" ++ pyStr desc ++ "\""],
                    file := save_tasks tasks2, err := none, loads := 1 }
            else
              { msgs := [], file := file, err := none, loads := 1 }
          else
            { msgs := ("Error: Task number " ++ toString (task_index + 1) ++
                       " not found.") ::
                      (match tasks with
                       | [] => ["You have no tasks."]
                       | _ => ["Valid task numbers are 1 to " ++
                               toString tasks.length ++ "."]),
              file := file, err := none, loads := 1 }

/-- `complete_task` (lines 130-134). -/
def complete_task (task_index_str : String) (file : FileContent) : Effect :=
  _update_task task_index_str "complete" file

/-- `remove_task` (lines 136-140). -/
def remove_task (task_index_str : String) (file : FileContent) : Effect :=
  _update_task task_index_str "remove" file

/-- The `print` calls of `show_help` (lines 51-64), in order; the
`"\nExamples:"` call keeps its embedded newline. -/
def show_help : List String :=
  ["--- Task Tracker Help ---",
   "Usage:",
   "  python task_tracker.py list                : Show all tasks",
   "  python task_tracker.py add \"<description>\" : Add a new task",
   "  python task_tracker.py complete <number>   : Mark a task as complete",
   "  python task_tracker.py remove <number>     : Remove a task",
   "  python task_tracker.py help                : Show this help message",
   "\nExamples:",
   "  python task_tracker.py add \"Buy milk and eggs\"",
   "  python task_tracker.py complete 3"]

/-- Observable outcome of one whole invocation: prints, final file state,
uncaught exception, and the argument of `sys.exit` (0 when the program falls
off the end of `main`). -/
structure MainResult where
  msgs : List String
  file : FileContent
  err : Option PyError
  exit : Nat

/-- An operation that returned normally lets `main` fall off the end, which
is exit code 0. -/
def effectResult (e : Effect) : MainResult :=
  { msgs := e.msgs, file := e.file, err := e.err, exit := 0 }

/-- `main` (lines 142-181).  `argv` is the full `sys.argv`, script name
included, so "no command" is `argv.length < 2`. -/
def main (argv : List String) (file : FileContent) : MainResult :=
  if argv.length < 2 then
    { msgs := "Error: No command provided." :: show_help,
      file := file, err := none, exit := 1 }
  else
    let command := pyLower (argv.getD 1 "")
    if command = "list" then
      effectResult (list_tasks file)
    else if command = "add" then
      if argv.length < 3 then
        { msgs := ["Error: \x27add\x27 command requires a task description.",
                   "Example: python task_tracker.py add \"Buy groceries\""],
          file := file, err := none, exit := 0 }
      else
        effectResult (add_task (String.intercalate " " (argv.drop 2)) file)
    else if command = "complete" then
      if argv.length < 3 then
        { msgs := ["Error: \x27complete\x27 command requires a task number.",
                   "Example: python task_tracker.py complete 2"],
          file := file, err := none, exit := 0 }
      else
        effectResult (complete_task (argv.getD 2 "") file)
    else if command = "remove" then
      if argv.length < 3 then
        { msgs := ["Error: \x27remove\x27 command requires a task number.",
                   "Example: python task_tracker.py remove 1"],
          file := file, err := none, exit := 0 }
      else
        effectResult (remove_task (argv.getD 2 "") file)
    else if command = "help" then
      { msgs := show_help, file := file, err := none, exit := 0 }
    else
      { msgs := ("Error: Unknown command \x27" ++ command ++ "\x27") :: show_help,
        file := file, err := none, exit := 1 }

/-- The exit status the operating system observes: an uncaught exception
makes the interpreter exit 1, otherwise the recorded `sys.exit` argument. -/
def exit_status (r : MainResult) : Nat :=
  match r.err with
  | some _ => 1
  | none => r.exit

/-- The five command words `main` recognizes (after `.lower()`). -/
def known_command (c : String) : Bool :=
  c = "list" || c = "add" || c = "complete" || c = "remove" || c = "help"

/-- A decoded task that every code path can handle without raising: a dict
with both a `status` and a `description` key. -/
def well_formed_task (t : Json) : Bool :=
  match t with
  | .obj kvs => (dictGet kvs "status").isSome && (dictGet kvs "description").isSome
  | _ => false

/-- Storage whose loaded task list is well formed (this includes the absent,
malformed, and non-array files, which all load as `[]`). -/
def well_formed_file (file : FileContent) : Bool :=
  match load_tasks file with
  | .ok tasks => tasks.all well_formed_task
  | .error _ => false

/-! ## Helper lemmas -/

/-- On the modelled file states `load_tasks` always returns normally. -/
theorem load_tasks_ok (file : FileContent) :
    ∃ tasks, load_tasks file = .ok tasks := by
  cases file with
  | absent => exact ⟨[], rfl⟩
  | malformed => exact ⟨[], rfl⟩
  | json j => cases j <;> exact ⟨_, rfl⟩

/-- Loading what `save_tasks` wrote gives back exactly the saved list. -/
theorem load_tasks_save_tasks (tasks : List Json) :
    load_tasks (save_tasks tasks) = .ok tasks := rfl

/-- Lookup after dict assignment: the assigned key reads the new value and
every other key is untouched. -/
theorem dictGet_dictSet (kvs : List (String × Json)) (k : String) (v : Json)
    (q : String) :
    dictGet (dictSet kvs k v) q = if q = k then some v else dictGet kvs q := by
  induction kvs with
  | nil =>
      simp only [dictSet, dictGet]
      by_cases h : k = q
      · rw [if_pos h, if_pos h.symm]
      · rw [if_neg h, if_neg (fun hh => h hh.symm)]
  | cons p rest ih =>
      obtain ⟨a, b⟩ := p
      by_cases hak : a = k
      · rw [dictSet, if_pos hak]
        by_cases hq : a = q
        · rw [dictGet, if_pos hq, if_pos ((hq.symm).trans hak)]
        · rw [dictGet, if_neg hq, if_neg (fun hh : q = k => hq (hak.trans hh.symm)),
              dictGet, if_neg hq]
      · rw [dictSet, if_neg hak, dictGet]
        by_cases hq : a = q
        · rw [if_pos hq, if_neg (fun hh : q = k => hak (hq.trans hh)), dictGet,
              if_pos hq]
        · rw [if_neg hq, ih]
          by_cases hqk : q = k
          · rw [if_pos hqk, if_pos hqk]
          · rw [if_neg hqk, if_neg hqk, dictGet, if_neg hq]

/-! ## C3 -/

/-- C3: whenever the storage file is absent, is not valid JSON, or parses to
a top-level value that is not an array, `load_tasks` returns the empty task
list normally (no exception reaches the caller). -/
theorem load_tasks_recovers_empty (file : FileContent)
    (h : file = .absent ∨ file = .malformed ∨
         ∃ j, file = .json j ∧ ∀ xs, j ≠ Json.arr xs) :
    load_tasks file = .ok [] := by
  rcases h with h | h | ⟨j, rfl, hj⟩
  · subst h; rfl
  · subst h; rfl
  · cases j with
    | arr xs => exact absurd rfl (hj xs)
    | null => rfl
    | bool b => rfl
    | num n => rfl
    | str s => rfl
    | obj kvs => rfl

/-- C3 witness: the three recovery cases at concrete inputs, an object `{}`
among them. -/
theorem load_tasks_recovers_empty_witness :
    load_tasks (FileContent.json (Json.obj [])) = .ok [] ∧
    load_tasks (FileContent.json (Json.str "hello")) = .ok [] ∧
    load_tasks FileContent.malformed = .ok [] ∧
    load_tasks FileContent.absent = .ok [] :=
  ⟨load_tasks_recovers_empty _
      (Or.inr (Or.inr ⟨Json.obj [], rfl, fun _ h => Json.noConfusion h⟩)),
   load_tasks_recovers_empty _
      (Or.inr (Or.inr ⟨Json.str "hello", rfl, fun _ h => Json.noConfusion h⟩)),
   load_tasks_recovers_empty _ (Or.inr (Or.inl rfl)),
   load_tasks_recovers_empty _ (Or.inl rfl)⟩

/-! ## C8 -/

/-- C8: saving a non-empty list of tasks with string `description` and
`status` fields and loading again returns a list equal to the original, every
field and the order included. -/
theorem save_then_load_roundtrip (tasks : List Json)
    (_hne : tasks ≠ [])
    (_hwf : ∀ t ∈ tasks, ∃ kvs d s, t = Json.obj kvs ∧
        dictGet kvs "description" = some (.str d) ∧
        dictGet kvs "status" = some (.str s)) :
    load_tasks (save_tasks tasks) = .ok tasks := rfl

/-- C8 witness: round-trip of a concrete two-task list. -/
theorem save_then_load_roundtrip_witness :
    load_tasks (save_tasks
      [Json.obj [("description", Json.str "Buy milk"), ("status", Json.str "pending")],
       Json.obj [("description", Json.str "Walk dog"), ("status", Json.str "complete")]]) =
    .ok
      [Json.obj [("description", Json.str "Buy milk"), ("status", Json.str "pending")],
       Json.obj [("description", Json.str "Walk dog"), ("status", Json.str "complete")]] := by
  refine save_then_load_roundtrip _ (by simp) ?_
  intro t ht
  simp only [List.mem_cons, List.not_mem_nil, or_false] at ht
  rcases ht with rfl | rfl
  · exact ⟨_, "Buy milk", "pending", rfl, rfl, rfl⟩
  · exact ⟨_, "Walk dog", "complete", rfl, rfl, rfl⟩

/-! ## C1 -/

/-- C1 counterexample: `add_task " "` with a whitespace-only description is
not rejected: it loads storage once and saves a one-task list, so the
persisted list changes. -/
theorem add_whitespace_is_saved :
    (add_task " " FileContent.absent).file =
      FileContent.json (Json.arr
        [Json.obj [("description", Json.str " "), ("status", Json.str "pending")]]) ∧
    FileContent.json (Json.arr
        [Json.obj [("description", Json.str " "), ("status", Json.str "pending")]]) ≠
      FileContent.absent ∧
    (add_task " " FileContent.absent).loads = 1 ∧
    (add_task " " FileContent.absent).msgs = ["Task added: \" \""] :=
  ⟨rfl, fun h => FileContent.noConfusion h, rfl, rfl⟩

/-- C1 (amended): `add_task` rejects exactly the empty description with a
user error and touches no storage (no load, no save); any non-empty
description, whitespace-only ones included, is appended as a pending task and
the result is saved. -/
theorem add_rejects_exactly_empty (description : String) (file : FileContent) :
    (description = "" →
      add_task description file =
        { msgs := ["Error: Cannot add an empty task."], file := file,
          err := none, loads := 0 }) ∧
    (description ≠ "" →
      ∃ tasks, load_tasks file = .ok tasks ∧
        add_task description file =
          { msgs := ["Task added: \"" ++ description ++ "\""],
            file := save_tasks (tasks ++
              [Json.obj [("description", .str description),
                         ("status", .str "pending")]]),
            err := none, loads := 1 }) := by
  constructor
  · intro h
    subst h
    rfl
  · intro h
    obtain ⟨tasks, htasks⟩ := load_tasks_ok file
    refine ⟨tasks, htasks, ?_⟩
    simp only [add_task, if_neg h, htasks]

/-- C1 witness: both branches of the amended statement at concrete inputs. -/
theorem add_rejects_exactly_empty_witness :
    add_task "" FileContent.absent =
      { msgs := ["Error: Cannot add an empty task."], file := FileContent.absent,
        err := none, loads := 0 } ∧
    (∃ tasks, load_tasks FileContent.absent = .ok tasks ∧
      add_task "x" FileContent.absent =
        { msgs := ["Task added: \"x\""],
          file := save_tasks (tasks ++
            [Json.obj [("description", .str "x"), ("status", .str "pending")]]),
          err := none, loads := 1 }) :=
  ⟨(add_rejects_exactly_empty "" FileContent.absent).1 rfl,
   (add_rejects_exactly_empty "x" FileContent.absent).2 (by decide)⟩

/-! ## C2 -/

/-- C2 counterexample: after `add_task "Buy milk"` on empty storage, the
output of `list_tasks` is not the single line `1. [ ] Buy milk`. -/
theorem list_after_add_not_single_line :
    (list_tasks (add_task "Buy milk" FileContent.absent).file).msgs ≠
      ["1. [ ] Buy milk"] := by
  decide

/-- C2 (amended): starting from empty storage, `add_task "Buy milk"` then
`list_tasks` prints exactly three lines: the header `--- Your Tasks ---`, the
task line `  1. [ ] Buy milk` (indented by two spaces), and the footer
`------------------`; the listing neither raises nor writes. -/
theorem list_after_add_three_lines :
    (list_tasks (add_task "Buy milk" FileContent.absent).file).msgs =
      ["--- Your Tasks ---", "  1. [ ] Buy milk", "------------------"] ∧
    (list_tasks (add_task "Buy milk" FileContent.absent).file).err = none ∧
    (list_tasks (add_task "Buy milk" FileContent.absent).file).file =
      (add_task "Buy milk" FileContent.absent).file := by
  refine ⟨?_, rfl, rfl⟩
  decide

/-! ## C4 -/

/-- C4: completing a task that is already complete reports that fact and
performs no write: the file is exactly as before, so repeating the call is an
idempotent no-op on storage. -/
theorem complete_already_complete_no_write (s : String) (i : Int)
    (file : FileContent) (tasks : List Json)
    (hs : pyInt s = some i)
    (hload : load_tasks file = .ok tasks)
    (hlo : 1 ≤ i) (hhi : i ≤ (tasks.length : Int))
    (hstatus : pyGetItem (tasks.getD (i - 1).toNat .null) "status" =
        .ok (.str "complete")) :
    complete_task s file =
      { msgs := ["Task " ++ toString i ++ " is already marked as complete."],
        file := file, err := none, loads := 1 } ∧
    (complete_task s (complete_task s file).file).file =
      (complete_task s file).file := by
  have h1 : complete_task s file =
      { msgs := ["Task " ++ toString i ++ " is already marked as complete."],
        file := file, err := none, loads := 1 } := by
    simp only [complete_task, _update_task, hs, hload]
    rw [if_pos ⟨by omega, by omega⟩]
    simp only [if_true]
    rw [hstatus]
    have hi : i - 1 + 1 = i := by omega
    simp [eqPyStr, hi]
  refine ⟨h1, ?_⟩
  rw [h1]
  show (complete_task s file).file = file
  rw [h1]

/-- C4 witness: the already-complete branch on a concrete one-task file. -/
theorem complete_already_complete_no_write_witness :
    complete_task "1" (save_tasks
        [Json.obj [("description", Json.str "Buy milk"),
                   ("status", Json.str "complete")]]) =
      { msgs := ["Task 1 is already marked as complete."],
        file := save_tasks
          [Json.obj [("description", Json.str "Buy milk"),
                     ("status", Json.str "complete")]],
        err := none, loads := 1 } :=
  (complete_already_complete_no_write "1" 1
    (save_tasks [Json.obj [("description", Json.str "Buy milk"),
                           ("status", Json.str "complete")]])
    [Json.obj [("description", Json.str "Buy milk"),
               ("status", Json.str "complete")]]
    (by decide) rfl (by decide) (by decide) rfl).1

/-! ## C9 -/

/-- C9: completing a pending task changes only that task's `status` field in
the persisted result: the saved list has the same length, every other
position is untouched, and the target task keeps its `description` and every
key other than `status`. -/
theorem complete_pending_changes_only_status (s : String) (i : Int)
    (file : FileContent) (tasks : List Json) (kvs : List (String × Json))
    (d : Json)
    (hs : pyInt s = some i)
    (hload : load_tasks file = .ok tasks)
    (hlo : 1 ≤ i) (hhi : i ≤ (tasks.length : Int))
    (htask : tasks.getD (i - 1).toNat .null = .obj kvs)
    (hstatus : dictGet kvs "status" = some (.str "pending"))
    (hdesc : dictGet kvs "description" = some d) :
    complete_task s file =
      { msgs := ["Task " ++ toString i ++ " marked as complete: \"" ++
                 pyStr d ++ "\""],
        file := save_tasks (tasks.set (i - 1).toNat
          (.obj (dictSet kvs "status" (.str "complete")))),
        err := none, loads := 1 } ∧
    (tasks.set (i - 1).toNat
        (.obj (dictSet kvs "status" (.str "complete")))).length = tasks.length ∧
    (∀ j, j ≠ (i - 1).toNat →
      (tasks.set (i - 1).toNat
          (.obj (dictSet kvs "status" (.str "complete")))).getD j .null =
        tasks.getD j .null) ∧
    dictGet (dictSet kvs "status" (.str "complete")) "description" = some d ∧
    (∀ k, k ≠ "status" →
      dictGet (dictSet kvs "status" (.str "complete")) k = dictGet kvs k) ∧
    dictGet (dictSet kvs "status" (.str "complete")) "status" =
      some (.str "complete") := by
  have hidx : (i - 1).toNat < tasks.length := by omega
  refine ⟨?_, ?_, ?_, ?_, ?_, ?_⟩
  · simp only [complete_task, _update_task, hs, hload]
    rw [if_pos ⟨by omega, by omega⟩]
    simp only [if_true]
    rw [htask]
    simp only [pyGetItem, hstatus]
    have hset : (tasks.set (i - 1).toNat
        (Json.obj (dictSet kvs "status" (.str "complete")))).getD
          (i - 1).toNat .null =
        Json.obj (dictSet kvs "status" (.str "complete")) := by
      rw [List.getD_eq_getElem?_getD, List.getElem?_set_self hidx]
      rfl
    have hi : i - 1 + 1 = i := by omega
    simp only [eqPyStr, pySetItem, hset, dictGet_dictSet, hdesc, hi]
    simp
  · simp
  · intro j hj
    rw [List.getD_eq_getElem?_getD, List.getD_eq_getElem?_getD,
        List.getElem?_set_ne (fun hh => hj hh.symm)]
  · rw [dictGet_dictSet, if_neg (by decide), hdesc]
  · intro k hk
    rw [dictGet_dictSet, if_neg hk]
  · rw [dictGet_dictSet, if_pos rfl]

/-- C9 witness: completing the pending first task of a concrete two-task
file. -/
theorem complete_pending_changes_only_status_witness :
    complete_task "1" (save_tasks
        [Json.obj [("description", Json.str "Buy milk"),
                   ("status", Json.str "pending")],
         Json.obj [("description", Json.str "Walk dog"),
                   ("status", Json.str "pending")]]) =
      { msgs := ["Task 1 marked as complete: \"Buy milk\""],
        file := save_tasks
          [Json.obj [("description", Json.str "Buy milk"),
                     ("status", Json.str "complete")],
           Json.obj [("description", Json.str "Walk dog"),
                     ("status", Json.str "pending")]],
        err := none, loads := 1 } :=
  (complete_pending_changes_only_status "1" 1
    (save_tasks
      [Json.obj [("description", Json.str "Buy milk"),
                 ("status", Json.str "pending")],
       Json.obj [("description", Json.str "Walk dog"),
                 ("status", Json.str "pending")]])
    [Json.obj [("description", Json.str "Buy milk"),
               ("status", Json.str "pending")],
     Json.obj [("description", Json.str "Walk dog"),
               ("status", Json.str "pending")]]
    [("description", Json.str "Buy milk"), ("status", Json.str "pending")]
    (Json.str "Buy milk")
    (by decide) rfl (by decide) (by decide) rfl rfl rfl).1

/-! ## C5 -/

/-- C5: removing a valid 1-based index deletes exactly the task at that
position, shortens the list by one, shifts the later tasks down by one
position, persists the result, and confirms with the removed task's
description. -/
theorem remove_deletes_at_index (s : String) (i : Int)
    (file : FileContent) (tasks : List Json) (d : Json)
    (hs : pyInt s = some i)
    (hload : load_tasks file = .ok tasks)
    (hlo : 1 ≤ i) (hhi : i ≤ (tasks.length : Int))
    (hdesc : pyGetItem (tasks.getD (i - 1).toNat .null) "description" = .ok d) :
    remove_task s file =
      { msgs := ["Task " ++ toString i ++ " removed: \"" ++ pyStr d ++ "\""],
        file := save_tasks (tasks.eraseIdx (i - 1).toNat),
        err := none, loads := 1 } ∧
    (tasks.eraseIdx (i - 1).toNat).length = tasks.length - 1 ∧
    (∀ j, j < (i - 1).toNat →
      (tasks.eraseIdx (i - 1).toNat).getD j .null = tasks.getD j .null) ∧
    (∀ j, (i - 1).toNat ≤ j →
      (tasks.eraseIdx (i - 1).toNat).getD j .null = tasks.getD (j + 1) .null) ∧
    tasks.eraseIdx (i - 1).toNat =
      tasks.take (i - 1).toNat ++ tasks.drop ((i - 1).toNat + 1) := by
  have hidx : (i - 1).toNat < tasks.length := by omega
  refine ⟨?_, List.length_eraseIdx_of_lt hidx, ?_, ?_,
    List.eraseIdx_eq_take_drop_succ tasks _⟩
  · simp only [remove_task, _update_task, hs, hload]
    rw [if_pos ⟨by omega, by omega⟩]
    simp only [if_false, if_true]
    rw [hdesc]
    have hi : i - 1 + 1 = i := by omega
    simp [hi]
  · intro j hj
    rw [List.getD_eq_getElem?_getD, List.getD_eq_getElem?_getD,
        List.getElem?_eraseIdx_of_lt tasks _ j hj]
  · intro j hj
    rw [List.getD_eq_getElem?_getD, List.getD_eq_getElem?_getD,
        List.getElem?_eraseIdx_of_ge tasks _ j hj]

/-- C5 witness: removing the first task of a concrete two-task file shifts
the second task to position one. -/
theorem remove_deletes_at_index_witness :
    remove_task "1" (save_tasks
        [Json.obj [("description", Json.str "Buy milk"),
                   ("status", Json.str "pending")],
         Json.obj [("description", Json.str "Walk dog"),
                   ("status", Json.str "complete")]]) =
      { msgs := ["Task 1 removed: \"Buy milk\""],
        file := save_tasks
          [Json.obj [("description", Json.str "Walk dog"),
                     ("status", Json.str "complete")]],
        err := none, loads := 1 } :=
  (remove_deletes_at_index "1" 1
    (save_tasks
      [Json.obj [("description", Json.str "Buy milk"),
                 ("status", Json.str "pending")],
       Json.obj [("description", Json.str "Walk dog"),
                 ("status", Json.str "complete")]])
    [Json.obj [("description", Json.str "Buy milk"),
               ("status", Json.str "pending")],
     Json.obj [("description", Json.str "Walk dog"),
               ("status", Json.str "complete")]]
    (Json.str "Buy milk")
    (by decide) rfl (by decide) (by decide) rfl).1

/-! ## C6 -/

/-- C6: an integer index outside `1..=length` makes `complete` and `remove`
print a not-found error followed by the valid range (or "You have no tasks."
when the list is empty) and leave the file untouched: no write happens. -/
theorem update_out_of_range_no_write (s : String) (i : Int) (action : String)
    (file : FileContent) (tasks : List Json)
    (hs : pyInt s = some i)
    (hload : load_tasks file = .ok tasks)
    (_haction : action = "complete" ∨ action = "remove")
    (hout : i < 1 ∨ (tasks.length : Int) < i) :
    _update_task s action file =
      { msgs := ("Error: Task number " ++ toString i ++ " not found.") ::
          (if tasks.isEmpty then ["You have no tasks."]
           else ["Valid task numbers are 1 to " ++ toString tasks.length ++ "."]),
        file := file, err := none, loads := 1 } := by
  simp only [_update_task, hs, hload]
  rw [if_neg (by omega)]
  have hi : i - 1 + 1 = i := by omega
  rw [hi]
  clear hs hload _haction hout hi
  cases tasks with
  | nil => rfl
  | cons t rest => rfl

/-- C6 witness: `remove "5"` on a concrete two-task list names the valid
range `1 to 2`, and `complete "1"` on empty storage reports that there are no
tasks; neither changes the file. -/
theorem update_out_of_range_no_write_witness :
    _update_task "5" "remove" (save_tasks
        [Json.obj [("description", Json.str "Buy milk"),
                   ("status", Json.str "pending")],
         Json.obj [("description", Json.str "Walk dog"),
                   ("status", Json.str "complete")]]) =
      { msgs := ["Error: Task number 5 not found.",
                 "Valid task numbers are 1 to 2."],
        file := save_tasks
          [Json.obj [("description", Json.str "Buy milk"),
                     ("status", Json.str "pending")],
           Json.obj [("description", Json.str "Walk dog"),
                     ("status", Json.str "complete")]],
        err := none, loads := 1 } ∧
    _update_task "1" "complete" FileContent.absent =
      { msgs := ["Error: Task number 1 not found.", "You have no tasks."],
        file := FileContent.absent, err := none, loads := 1 } :=
  ⟨update_out_of_range_no_write "5" 5 "remove"
      (save_tasks
        [Json.obj [("description", Json.str "Buy milk"),
                   ("status", Json.str "pending")],
         Json.obj [("description", Json.str "Walk dog"),
                   ("status", Json.str "complete")]])
      [Json.obj [("description", Json.str "Buy milk"),
                 ("status", Json.str "pending")],
       Json.obj [("description", Json.str "Walk dog"),
                 ("status", Json.str "complete")]]
      (by decide) rfl (Or.inr rfl) (by decide),
   update_out_of_range_no_write "1" 1 "complete" FileContent.absent []
      (by decide) rfl (Or.inl rfl) (by decide)⟩

/-! ## C10 -/

/-- On a list whose entries are all dicts the listing loop never raises,
prints one line per task, and each line shows the strict `== "complete"`
marker and the `"No description"` fallback. -/
theorem render_tasks_obj (tasks : List Json) (i : Nat)
    (hobj : ∀ t ∈ tasks, ∃ kvs, t = Json.obj kvs) :
    (render_tasks tasks i).2 = none ∧
    (render_tasks tasks i).1.length = tasks.length ∧
    ∀ j kvs, tasks.getD j .null = .obj kvs → j < tasks.length →
      (render_tasks tasks i).1.getD j "" =
        "  " ++ toString (i + j) ++ ". " ++
        (if eqPyStr ((dictGet kvs "status").getD .null) "complete"
         then "[x]" else "[ ]") ++ " " ++
        ((dictGet kvs "description").map pyStr).getD "No description" := by
  induction tasks generalizing i with
  | nil =>
      refine ⟨rfl, rfl, ?_⟩
      intro j kvs _ hj
      exact absurd hj (by simp)
  | cons t rest ih =>
      obtain ⟨kvs₀, rfl⟩ := hobj t (List.mem_cons_self t rest)
      have hrest : ∀ u ∈ rest, ∃ kvs, u = Json.obj kvs :=
        fun u hu => hobj u (List.mem_cons_of_mem _ hu)
      obtain ⟨herr, hlen, hline⟩ := ih (i + 1) hrest
      refine ⟨?_, ?_, ?_⟩
      · simp only [render_tasks, pyGet, herr]
      · simp only [render_tasks, pyGet, List.length_cons, hlen]
      · intro j kvs hj hjlen
        cases j with
        | zero =>
            simp only [List.getD_cons_zero] at hj
            cases hj
            simp only [render_tasks, pyGet, List.getD_cons_zero, Nat.add_zero]
            cases hd : dictGet kvs₀ "description" <;> simp [hd]
        | succ k =>
            have hk : k < rest.length := by simpa using hjlen
            have hj' : rest.getD k .null = .obj kvs := by simpa using hj
            simp only [render_tasks, pyGet, List.getD_cons_succ]
            rw [hline k kvs hj' hk]
            have harith : i + 1 + k = i + (k + 1) := by omega
            rw [harith]

/-- C10: on a non-empty loaded list whose entries are dicts, `list_tasks`
does not fail; every task whose `status` value is anything but exactly the
string `"complete"` (a missing `status` included) is shown with the marker
`[ ]`, a `status` equal to `"complete"` with `[x]`, and a task with no
`description` key is shown with the placeholder `No description`. -/
theorem list_tolerates_malformed_entries (file : FileContent)
    (tasks : List Json)
    (hload : load_tasks file = .ok tasks)
    (hne : tasks ≠ [])
    (hobj : ∀ t ∈ tasks, ∃ kvs, t = Json.obj kvs) :
    (list_tasks file).err = none ∧
    (list_tasks file).file = file ∧
    (list_tasks file).msgs =
      "--- Your Tasks ---" :: (render_tasks tasks 1).1 ++ ["------------------"] ∧
    (∀ v s, eqPyStr v s = true ↔ v = Json.str s) ∧
    ∀ j kvs, tasks.getD j .null = .obj kvs → j < tasks.length →
      (render_tasks tasks 1).1.getD j "" =
        "  " ++ toString (1 + j) ++ ". " ++
        (if eqPyStr ((dictGet kvs "status").getD .null) "complete"
         then "[x]" else "[ ]") ++ " " ++
        ((dictGet kvs "description").map pyStr).getD "No description" := by
  obtain ⟨herr, _hlen, hline⟩ := render_tasks_obj tasks 1 hobj
  have hiff : ∀ v s, eqPyStr v s = true ↔ v = Json.str s := by
    intro v s
    cases v with
    | str t => simp [eqPyStr, Json.str.injEq]
    | null => simp [eqPyStr]
    | bool b => simp [eqPyStr]
    | num n => simp [eqPyStr]
    | arr xs => simp [eqPyStr]
    | obj kvs => simp [eqPyStr]
  cases tasks with
  | nil => exact absurd rfl hne
  | cons t rest =>
      refine ⟨?_, ?_, ?_, hiff, hline⟩
      · simp only [list_tasks, hload, herr]
      · simp only [list_tasks, hload, herr]
      · simp only [list_tasks, hload, herr]

/-- C10 witness: a three-entry file exercising a complete task with no
description, a non-string `status`, and a missing `status` key. -/
theorem list_tolerates_malformed_entries_witness :
    (list_tasks (save_tasks
        [Json.obj [("status", Json.str "complete")],
         Json.obj [("description", Json.str "Pay rent"), ("status", Json.num 5)],
         Json.obj [("description", Json.str "Call mom")]])).err = none ∧
    (list_tasks (save_tasks
        [Json.obj [("status", Json.str "complete")],
         Json.obj [("description", Json.str "Pay rent"), ("status", Json.num 5)],
         Json.obj [("description", Json.str "Call mom")]])).msgs =
      ["--- Your Tasks ---",
       "  1. [x] No description",
       "  2. [ ] Pay rent",
       "  3. [ ] Call mom",
       "------------------"] := by
  refine ⟨(list_tolerates_malformed_entries
      (save_tasks
        [Json.obj [("status", Json.str "complete")],
         Json.obj [("description", Json.str "Pay rent"), ("status", Json.num 5)],
         Json.obj [("description", Json.str "Call mom")]])
      [Json.obj [("status", Json.str "complete")],
       Json.obj [("description", Json.str "Pay rent"), ("status", Json.num 5)],
       Json.obj [("description", Json.str "Call mom")]]
      rfl (List.cons_ne_nil _ _) ?_).1, ?_⟩
  · intro t ht
    simp only [List.mem_cons, List.not_mem_nil, or_false] at ht
    rcases ht with rfl | rfl | rfl
    · exact ⟨_, rfl⟩
    · exact ⟨_, rfl⟩
    · exact ⟨_, rfl⟩
  · rfl

/-! ## C7 helper lemmas -/

/-- Every element of a well-formed task list is a dict. -/
theorem well_formed_obj {tasks : List Json}
    (h : tasks.all well_formed_task = true) :
    ∀ t ∈ tasks, ∃ kvs, t = Json.obj kvs := by
  intro t ht
  have hwf := List.all_eq_true.mp h t ht
  cases t with
  | obj kvs => exact ⟨kvs, rfl⟩
  | null => simp [well_formed_task] at hwf
  | bool b => simp [well_formed_task] at hwf
  | num n => simp [well_formed_task] at hwf
  | str s => simp [well_formed_task] at hwf
  | arr xs => simp [well_formed_task] at hwf

/-- A well-formed file loads normally into a well-formed task list. -/
theorem well_formed_file_load {file : FileContent}
    (hwf : well_formed_file file = true) :
    ∃ tasks, load_tasks file = .ok tasks ∧ tasks.all well_formed_task = true := by
  obtain ⟨ts, hts⟩ := load_tasks_ok file
  refine ⟨ts, hts, ?_⟩
  have h := hwf
  simp only [well_formed_file, hts] at h
  exact h

/-- `add_task` never raises. -/
theorem add_task_no_err (d : String) (file : FileContent) :
    (add_task d file).err = none := by
  by_cases h : d = ""
  · subst h; rfl
  · obtain ⟨ts, hts⟩ := load_tasks_ok file
    simp [add_task, h, hts]

/-- `list_tasks` never raises on a well-formed file. -/
theorem list_tasks_no_err (file : FileContent)
    (hwf : well_formed_file file = true) :
    (list_tasks file).err = none := by
  obtain ⟨ts, hts, hall⟩ := well_formed_file_load hwf
  cases ts with
  | nil => simp [list_tasks, hts]
  | cons t rest =>
      obtain ⟨herr, -, -⟩ := render_tasks_obj (t :: rest) 1 (well_formed_obj hall)
      simp [list_tasks, hts, herr]

/-- `_update_task` never raises on a well-formed file, whatever the index
string and action. -/
theorem update_task_no_err (s action : String) (file : FileContent)
    (hwf : well_formed_file file = true) :
    (_update_task s action file).err = none := by
  obtain ⟨ts, hts, hall⟩ := well_formed_file_load hwf
  cases hpi : pyInt s with
  | none => simp [_update_task, hpi]
  | some n =>
      simp only [_update_task, hpi, hts]
      by_cases hrange : 0 ≤ n - 1 ∧ n - 1 < (ts.length : Int)
      · rw [if_pos hrange]
        have hidx : (n - 1).toNat < ts.length := by omega
        have hmem : ts.getD (n - 1).toNat .null ∈ ts := by
          rw [List.getD_eq_getElem?_getD, List.getElem?_eq_getElem hidx]
          exact List.getElem_mem hidx
        obtain ⟨kvs, hk⟩ := well_formed_obj hall _ hmem
        have hwft := List.all_eq_true.mp hall _ hmem
        rw [hk] at hwft
        simp only [well_formed_task, Bool.and_eq_true,
          Option.isSome_iff_exists] at hwft
        obtain ⟨⟨st, hst⟩, de, hde⟩ := hwft
        by_cases hact : action = "complete"
        · rw [if_pos hact, hk]
          simp only [pyGetItem, hst]
          by_cases hcomp : eqPyStr st "complete" = true
          · simp [hcomp]
          · simp only [Bool.not_eq_true] at hcomp
            have hset : (ts.set (n - 1).toNat
                (Json.obj (dictSet kvs "status" (.str "complete")))).getD
                  (n - 1).toNat .null =
                Json.obj (dictSet kvs "status" (.str "complete")) := by
              rw [List.getD_eq_getElem?_getD, List.getElem?_set_self hidx]
              rfl
            simp only [hcomp, Bool.false_eq_true, if_false, pySetItem, hset,
              pyGetItem, dictGet_dictSet]
            rw [if_neg (by decide)]
            simp [hde]
        · rw [if_neg hact]
          by_cases hrem : action = "remove"
          · rw [if_pos hrem, hk]
            simp [pyGetItem, hde]
          · rw [if_neg hrem]
      · rw [if_neg hrange]

/-- `main` never raises on a well-formed file. -/
theorem main_no_err (argv : List String) (file : FileContent)
    (hwf : well_formed_file file = true) :
    (main argv file).err = none := by
  by_cases h2 : argv.length < 2
  · simp [main, h2]
  · simp only [main, if_neg h2]
    by_cases hl : pyLower (argv[1]?.getD "") = "list"
    · simp [hl, effectResult, list_tasks_no_err file hwf]
    · by_cases ha : pyLower (argv[1]?.getD "") = "add"
      · by_cases h3 : argv.length < 3
        · simp [hl, ha, h3]
        · simp [hl, ha, h3, effectResult, add_task_no_err]
      · by_cases hc : pyLower (argv[1]?.getD "") = "complete"
        · by_cases h3 : argv.length < 3
          · simp [hl, ha, hc, h3]
          · simp [hl, ha, hc, h3, effectResult, complete_task,
              update_task_no_err _ _ file hwf]
        · by_cases hr : pyLower (argv[1]?.getD "") = "remove"
          · by_cases h3 : argv.length < 3
            · simp [hl, ha, hc, hr, h3]
            · simp [hl, ha, hc, hr, h3, effectResult, remove_task,
                update_task_no_err _ _ file hwf]
          · by_cases hh : pyLower (argv[1]?.getD "") = "help"
            · simp [hl, ha, hc, hr, hh]
            · simp [hl, ha, hc, hr, hh]

/-- The `sys.exit` argument of `main` is 1 exactly in the no-command and
unknown-command branches, 0 everywhere else. -/
theorem main_exit_eq (argv : List String) (file : FileContent) :
    (main argv file).exit =
      if argv.length < 2 ∨ known_command (pyLower (argv.getD 1 "")) = false
      then 1 else 0 := by
  by_cases h2 : argv.length < 2
  · simp [main, h2]
  · simp only [main, if_neg h2]
    by_cases hl : pyLower (argv[1]?.getD "") = "list"
    · simp [hl, known_command, h2, effectResult]
    · by_cases ha : pyLower (argv[1]?.getD "") = "add"
      · by_cases h3 : argv.length < 3 <;>
          simp [hl, ha, h3, known_command, h2, effectResult]
      · by_cases hc : pyLower (argv[1]?.getD "") = "complete"
        · by_cases h3 : argv.length < 3 <;>
            simp [hl, ha, hc, h3, known_command, h2, effectResult]
        · by_cases hr : pyLower (argv[1]?.getD "") = "remove"
          · by_cases h3 : argv.length < 3 <;>
              simp [hl, ha, hc, hr, h3, known_command, h2, effectResult]
          · by_cases hh : pyLower (argv[1]?.getD "") = "help"
            · simp [hl, ha, hc, hr, hh, known_command, h2]
            · simp [hl, ha, hc, hr, hh, known_command, h2]

/-! ## C7 -/

/-- C7: on a well-formed storage file the process exit status is 1 exactly
for the two dispatch failures (no command at all, unrecognized command word);
the soft user errors — missing argument, non-integer index, out-of-range
index, empty description — print a message, leave the file unchanged, and
exit 0. -/
theorem exit_one_only_for_dispatch_errors (file : FileContent)
    (hwf : well_formed_file file = true) :
    (∀ argv, (main argv file).err = none) ∧
    (∀ argv, exit_status (main argv file) = 1 ↔
        (argv.length < 2 ∨ known_command (pyLower (argv.getD 1 "")) = false)) ∧
    (∀ p s, pyInt s = none →
        main [p, "complete", s] file =
          { msgs := ["Error: Invalid task number \x27" ++ s ++
                     "\x27. Must be an integer."],
            file := file, err := none, exit := 0 }) ∧
    (∀ p s i tasks, pyInt s = some i → load_tasks file = .ok tasks →
        (i < 1 ∨ (tasks.length : Int) < i) →
        (main [p, "remove", s] file).file = file ∧
        (main [p, "remove", s] file).exit = 0 ∧
        (main [p, "remove", s] file).msgs ≠ []) ∧
    (∀ p, main [p, "add", ""] file =
        { msgs := ["Error: Cannot add an empty task."], file := file,
          err := none, exit := 0 }) ∧
    (∀ p, main [p, "add"] file =
        { msgs := ["Error: \x27add\x27 command requires a task description.",
                   "Example: python task_tracker.py add \"Buy groceries\""],
          file := file, err := none, exit := 0 }) ∧
    (∀ p, main [p, "complete"] file =
        { msgs := ["Error: \x27complete\x27 command requires a task number.",
                   "Example: python task_tracker.py complete 2"],
          file := file, err := none, exit := 0 }) ∧
    (∀ p, main [p, "remove"] file =
        { msgs := ["Error: \x27remove\x27 command requires a task number.",
                   "Example: python task_tracker.py remove 1"],
          file := file, err := none, exit := 0 }) := by
  refine ⟨fun argv => main_no_err argv file hwf, ?_, ?_, ?_, ?_, ?_, ?_, ?_⟩
  · intro argv
    have he := main_no_err argv file hwf
    have hx := main_exit_eq argv file
    simp only [exit_status, he]
    rw [hx]
    by_cases hcond : argv.length < 2 ∨
        known_command (pyLower (argv.getD 1 "")) = false
    · rw [if_pos hcond]
      exact ⟨fun _ => hcond, fun _ => rfl⟩
    · rw [if_neg hcond]
      exact ⟨fun h01 => absurd h01 (by decide), fun hc => absurd hc hcond⟩
  · intro p s hs
    have hpl : pyLower "complete" = "complete" := by decide
    have hm : main [p, "complete", s] file =
        effectResult (complete_task s file) := by
      simp [main, hpl]
    rw [hm]
    simp [effectResult, complete_task, _update_task, hs]
  · intro p s i tasks hs hload hout
    have hpl : pyLower "remove" = "remove" := by decide
    have hm : main [p, "remove", s] file =
        effectResult (remove_task s file) := by
      simp [main, hpl]
    have hupd : remove_task s file =
        { msgs := ("Error: Task number " ++ toString (i - 1 + 1) ++
              " not found.") ::
            (if tasks.isEmpty then ["You have no tasks."]
             else ["Valid task numbers are 1 to " ++
                   toString tasks.length ++ "."]),
          file := file, err := none, loads := 1 } := by
      simp only [remove_task, _update_task, hs, hload]
      rw [if_neg (by omega)]
      clear hload hout
      cases tasks with
      | nil => rfl
      | cons t rest => rfl
    rw [hm, hupd]
    exact ⟨rfl, rfl, by simp [effectResult]⟩
  · intro p
    have hpl : pyLower "add" = "add" := by decide
    have hm : main [p, "add", ""] file =
        effectResult (add_task (String.intercalate " " [""]) file) := by
      simp [main, hpl]
    rw [hm]
    rfl
  · intro p
    have hpl : pyLower "add" = "add" := by decide
    simp [main, hpl]
  · intro p
    have hpl : pyLower "complete" = "complete" := by decide
    simp [main, hpl]
  · intro p
    have hpl : pyLower "remove" = "remove" := by decide
    simp [main, hpl]

/-- C7 witness: on a concrete well-formed one-task file, no command exits 1,
an unknown command exits 1, and `complete abc` leaves the file unchanged with
exit 0. -/
theorem exit_one_only_for_dispatch_errors_witness :
    (exit_status (main ["task_tracker.py"] (save_tasks
        [Json.obj [("description", Json.str "Buy milk"),
                   ("status", Json.str "pending")]])) = 1 ↔
      (([("task_tracker.py" : String)].length < 2) ∨
        known_command (pyLower ([("task_tracker.py" : String)].getD 1 "")) = false)) ∧
    main ["task_tracker.py", "complete", "abc"] (save_tasks
        [Json.obj [("description", Json.str "Buy milk"),
                   ("status", Json.str "pending")]]) =
      { msgs := ["Error: Invalid task number \x27abc\x27. Must be an integer."],
        file := save_tasks
          [Json.obj [("description", Json.str "Buy milk"),
                     ("status", Json.str "pending")]],
        err := none, exit := 0 } :=
  ⟨(exit_one_only_for_dispatch_errors
      (save_tasks [Json.obj [("description", Json.str "Buy milk"),
                             ("status", Json.str "pending")]])
      (by decide)).2.1 ["task_tracker.py"],
   (exit_one_only_for_dispatch_errors
      (save_tasks [Json.obj [("description", Json.str "Buy milk"),
                             ("status", Json.str "pending")]])
      (by decide)).2.2.1 "task_tracker.py" "abc" (by decide)⟩

end TaskTracker
